import Mathlib

/-!
Verification development for the i.magiccap upload/retrieve gateway
(`src/main.py`).  The Python source is shallowly embedded: pure string
manipulation becomes Lean functions over `String`/`List Char`, the S3
bucket becomes an association list from keys to stored objects, the
installation registry becomes a list of installation ids, and the two
request handlers (`upload`, `image_view`) become pure functions that
return the response produced together with the resulting bucket state.
Uncaught Python exceptions are modelled by a dedicated `unhandled`
constructor of the response types.
-/

namespace MagicCap

/-- Python `str.split(sep)` with a one-character separator, on the
character list of the string: splits at every occurrence of `sep`,
keeping empty components (so `"a  b"` splits on `' '` into
`["a", "", "b"]` and `"a"` splits into `["a"]`).  The result is always
nonempty, exactly as in Python. -/
def pySplitChar (sep : Char) : List Char → List (List Char)
  | [] => [[]]
  | c :: cs =>
    let r := pySplitChar sep cs
    if c = sep then [] :: r
    else (c :: r.headD []) :: r.tail

/-- Python `s.split(sep)` for a one-character separator `sep`, as used by
`auth_header.split(" ")` (line 121) and `file_.name.split(".")`
(line 141) of `src/main.py`. -/
def pySplit (sep : Char) (s : String) : List String :=
  (pySplitChar sep s.data).map (fun l => ⟨l⟩)

/-- Python `str.lower()` restricted to the ASCII range, character-wise:
`A`–`Z` maps to `a`–`z`, everything else is unchanged.  (The source only
ever lowercases filename extensions.) -/
def pyLowerChar (c : Char) : Char :=
  if 'A' ≤ c ∧ c ≤ 'Z' then Char.ofNat (c.toNat + 32) else c

/-- Python `s.lower()` (ASCII fragment), used on the extracted extension
in `file_.name.split(".").pop().lower()` (line 141). -/
def pyLower (s : String) : String :=
  ⟨s.data.map pyLowerChar⟩

/-- `string.ascii_lowercase` from the Python standard library. -/
def ascii_lowercase : List Char := "abcdefghijklmnopqrstuvwxyz".data

/-- `"".join([random.choice(string.ascii_lowercase) for i in range(8)])`
(line 140).  The entropy source is passed in explicitly: `rand i` is the
index into `string.ascii_lowercase` chosen by the `i`-th call to
`random.choice`. -/
def gen_filename (rand : Nat → Fin 26) : String :=
  ⟨(List.range 8).map (fun i => ascii_lowercase.getD (rand i).val 'a')⟩

/-- `file_.name.split(".").pop().lower()` (line 141): the last component
of the filename split on `'.'`, lower-cased.  `split` never returns an
empty list in Python, so `pop` cannot fail; `getLastD` matches that. -/
def extension_of (name : String) : String :=
  pyLower ((pySplit '.' name).getLastD "")

/-- The storage key `f"{filename}.{ext}"` built at line 143 of
`src/main.py`: the random 8-letter prefix, a literal dot, and the
lower-cased last dot-component of the original filename. -/
def gen_key (rand : Nat → Fin 26) (origName : String) : String :=
  gen_filename rand ++ "." ++ extension_of origName

/-- One file part of the multipart body, as Sanic hands it to the
handler: `file_.name` (the client-declared filename), `file_.body`
(the raw bytes) and `file_.type` (the declared content type). -/
structure FilePart where
  name : String
  body : List Nat
  type : String
deriving DecidableEq, Repr

/-- The slice of a Sanic `Request` the upload handler reads: the
`Authorization` header (absent ⇒ `KeyError` at line 115) and
`req.files`, a map from field names to lists of file parts. -/
structure UploadRequest where
  authHeader : Option String
  files : List (String × List FilePart)
deriving DecidableEq

/-- The S3 bucket: an association list from keys to
(body bytes, content type).  `put_object` prepends; `get_object` takes
the first match. -/
abbrev Storage := List (String × List Nat × String)

/-- Outcome of the `upload` route: `jsonError s m` is
`response.json({"error": m}, status=s)`, `jsonUrl s u` is
`response.json({"url": u})` (status 200), and `unhandled e` is an
uncaught Python exception escaping the handler. -/
inductive UploadResult where
  | jsonError (status : Nat) (error : String)
  | jsonUrl (status : Nat) (url : String)
  | unhandled (exn : String)
deriving DecidableEq, Repr

/-- Whether the upload response is the success response. -/
def UploadResult.isOk : UploadResult → Bool
  | .jsonUrl _ _ => true
  | _ => false

/-- The `upload` handler (lines 111–147 of `src/main.py`), embedded as a
pure function of the installation registry, the current bucket state,
the entropy source and the request.  Returns the response together with
the bucket state after the call.  Mirrors the source line by line:
missing `Authorization` header → 400 (lines 114–119); header not
splitting on a single space into exactly two tokens → 400
(lines 121–125); second token not a registered installation → 400
(lines 127–131); `req.files['data']` absent → `KeyError` → 400
(lines 133–138); present but an empty list → `req.files['data'][0]`
raises an uncaught `IndexError` (line 134); otherwise `put_object` with
the generated key and the part's body and content type, and a 200 JSON
body carrying the public URL (lines 140–147). -/
def upload (installs : List String) (storage : Storage) (rand : Nat → Fin 26)
    (req : UploadRequest) : UploadResult × Storage :=
  match req.authHeader with
  | none => (.jsonError 400 "No authorization header present.", storage)
  | some auth_header =>
    let auth_header_split := pySplit ' ' auth_header
    if auth_header_split.length ≠ 2 then
      (.jsonError 400 "Invalid authorization header present.", storage)
    else if !installs.contains (auth_header_split.getD 1 "") then
      (.jsonError 400 "Invalid installation ID.", storage)
    else
      match req.files.lookup "data" with
      | none => (.jsonError 400 "No data found.", storage)
      | some [] => (.unhandled "IndexError", storage)
      | some (file_ :: _) =>
        let key := gen_key rand file_.name
        (.jsonUrl 200 ("https://i.magiccap.me/" ++ key),
         (key, file_.body, file_.type) :: storage)

/-- Errors an S3 `get_object` call can raise: `clientError code` is a
`botocore.exceptions.ClientError` carrying the backend's error code
(`"NoSuchKey"` for a missing key, but also e.g. `"InvalidAccessKeyId"`,
`"SignatureDoesNotMatch"`, `"SlowDown"`); `connectionFailure` is any
exception that is *not* a `ClientError` (e.g.
`EndpointConnectionError` on transient network failure). -/
inductive S3Error where
  | clientError (code : String)
  | connectionFailure (msg : String)
deriving DecidableEq, Repr

/-- A successful `get_object` response: the stored `ContentType` and the
body stream.  The stream is the sequence of items yielded by
`stream.iter_chunks()`; each item is the pair
`(chunk bytes, end-of-http-chunk flag)` that aiohttp's
`StreamReader.iter_chunks` yields. -/
structure GetObjectOk where
  contentType : String
  bodyChunks : List (List Nat × Bool)
deriving DecidableEq, Repr

/-- `app.client.get_object(Bucket=..., Key=item)` over the embedded
bucket: the first stored object under the key, delivered as a single
chunk, or a `ClientError` with code `"NoSuchKey"`. -/
def get_object (storage : Storage) (key : String) :
    Except S3Error GetObjectOk :=
  match storage.lookup key with
  | some (body, ct) => .ok ⟨ct, [(body, true)]⟩
  | none => .error (.clientError "NoSuchKey")

/-- The write loop of `SanicS3Stream.__call__` (lines 26–29):
`async for chunk in stream.iter_chunks(): await response.write(chunk[0])`.
`acc` is the byte sequence written to the HTTP response so far; each
iteration appends `chunk[0]`, the data component of the yielded pair. -/
def sanicS3StreamLoop : List (List Nat × Bool) → List Nat → List Nat
  | [], acc => acc
  | chunk :: rest, acc => sanicS3StreamLoop rest (acc ++ chunk.1)

/-- All bytes `SanicS3Stream` writes to the response for a given chunk
stream. -/
def sanicS3Stream (chunks : List (List Nat × Bool)) : List Nat :=
  sanicS3StreamLoop chunks []

/-- Outcome of the `image_view` route: `streamResp s ct b` is
`response.stream(...)` with status `s`, content type `ct` and total
streamed bytes `b`; `textResp s b` is `response.text(b, status=s)`;
`unhandled` is an exception escaping the handler. -/
inductive RetrieveResult where
  | streamResp (status : Nat) (contentType : String) (body : List Nat)
  | textResp (status : Nat) (body : String)
  | unhandled (exn : String)
deriving DecidableEq, Repr

/-- The `image_view` handler (lines 150–159 of `src/main.py`) as a
function of the `get_object` outcome: on success, stream the body with
the stored content type; on `botocore.exceptions.ClientError` —
whatever its error code — return
`response.text("Not found.", status=404)`; any other exception is not
caught and escapes the handler. -/
def image_view (res : Except S3Error GetObjectOk) : RetrieveResult :=
  match res with
  | .ok r => .streamResp 200 r.contentType (sanicS3Stream r.bodyChunks)
  | .error (.clientError _) => .textResp 404 "Not found."
  | .error (.connectionFailure m) => .unhandled m

/-- Full retrieval of a key against the embedded bucket:
`image_view` applied to the real `get_object` outcome. -/
def retrieve (storage : Storage) (key : String) : RetrieveResult :=
  image_view (get_object storage key)

/-- Python `str.split()` with no argument, as the spec's notion of
"whitespace-separated tokens": split on maximal runs of whitespace,
discarding empty tokens.  (Used only to compare the code's
single-space split against the spec's wording; not part of the
source embedding.)  `cur` is the current token, built in reverse. -/
def pyWsSplitAux : List Char → List Char → List (List Char)
  | [], cur => if cur.isEmpty then [] else [cur.reverse]
  | c :: cs, cur =>
    if c.isWhitespace then
      if cur.isEmpty then pyWsSplitAux cs []
      else cur.reverse :: pyWsSplitAux cs []
    else pyWsSplitAux cs (c :: cur)

/-- The whitespace-separated tokens of a string (Python `s.split()`). -/
def wsTokens (s : String) : List String :=
  (pyWsSplitAux s.data []).map (fun l => ⟨l⟩)

/-- A lowercase ASCII letter. -/
def isLowerAlpha (c : Char) : Bool :=
  'a' ≤ c && c ≤ 'z'

/-! ## Helper lemmas -/

lemma sanicS3StreamLoop_eq (chunks : List (List Nat × Bool)) :
    ∀ acc, sanicS3StreamLoop chunks acc = acc ++ (chunks.map Prod.fst).flatten := by
  induction chunks with
  | nil => intro acc; simp [sanicS3StreamLoop]
  | cons c rest ih =>
    intro acc
    simp [sanicS3StreamLoop, ih]

lemma sanicS3Stream_eq (chunks : List (List Nat × Bool)) :
    sanicS3Stream chunks = (chunks.map Prod.fst).flatten := by
  simpa using sanicS3StreamLoop_eq chunks []

lemma sanicS3Stream_single (b : List Nat) (fl : Bool) :
    sanicS3Stream [(b, fl)] = b := by
  simp [sanicS3Stream_eq]

lemma pySplitChar_no_sep (sep : Char) :
    ∀ l : List Char, sep ∉ l → pySplitChar sep l = [l] := by
  intro l
  induction l with
  | nil => intro _; rfl
  | cons c cs ih =>
    intro hmem
    have hc : c ≠ sep := fun h => hmem (h ▸ List.mem_cons_self c cs)
    have hcs : sep ∉ cs := fun h => hmem (List.mem_cons_of_mem c h)
    simp [pySplitChar, hc, ih hcs]

lemma ascii_getD_lower : ∀ v : Fin 26,
    isLowerAlpha (ascii_lowercase.getD v.val 'a') = true := by decide

lemma gen_filename_length (rand : Nat → Fin 26) :
    (gen_filename rand).length = 8 := by
  simp [gen_filename, String.length]

lemma gen_filename_lower (rand : Nat → Fin 26) :
    ∀ c ∈ (gen_filename rand).data, isLowerAlpha c = true := by
  intro c hc
  simp only [gen_filename, List.mem_map, List.mem_range] at hc
  obtain ⟨i, _, rfl⟩ := hc
  exact ascii_getD_lower (rand i)

/-! ## Claim C9: in-order, lossless chunk forwarding -/

/-- C9: the bytes `SanicS3Stream` writes to the HTTP response are
exactly the in-order concatenation of the data components of the chunks
yielded by the storage read stream — no chunk dropped, truncated or
reordered — and on a successful `get_object` the streamed response body
is that concatenation. -/
theorem sanicS3Stream_forwards_in_order :
    (∀ chunks : List (List Nat × Bool),
      sanicS3Stream chunks = (chunks.map Prod.fst).flatten) ∧
    (∀ (ct : String) (chunks : List (List Nat × Bool)),
      image_view (.ok ⟨ct, chunks⟩)
        = .streamResp 200 ct ((chunks.map Prod.fst).flatten)) := by
  constructor
  · exact sanicS3Stream_eq
  · intro ct chunks
    simp [image_view, sanicS3Stream_eq]

/-! ## Claim C8: not-found retrieval gives 404 "Not found." -/

/-- C8: retrieving a key the bucket does not hold — so `get_object`
raises the backend's no-such-key `ClientError` — produces
`response.text("Not found.", status=404)`. -/
theorem retrieve_not_found (storage : Storage) (key : String)
    (h : storage.lookup key = none) :
    retrieve storage key = .textResp 404 "Not found." := by
  simp [retrieve, get_object, image_view, h]

/-- Witness for `retrieve_not_found`: the empty bucket and a concrete
key. -/
theorem retrieve_not_found_witness :
    ([] : Storage).lookup "missing.png" = none ∧
    retrieve [] "missing.png" = .textResp 404 "Not found." :=
  ⟨rfl, retrieve_not_found [] "missing.png" rfl⟩

/-! ## Claim C1: which backend read errors escape unhandled -/

/-- C1 counterexample: a credentials failure
(`ClientError` with code `"InvalidAccessKeyId"`) does *not* surface as
an unhandled failure — `image_view`'s `except
botocore.exceptions.ClientError` clause catches it and returns the same
404 "Not found." response as for a missing key. -/
theorem image_view_client_error_counterexample :
    image_view (.error (.clientError "InvalidAccessKeyId"))
      = .textResp 404 "Not found." := rfl

/-- C1 (amended): only backend read failures that are not
`botocore.exceptions.ClientError` (e.g. transient connection failures)
escape `image_view` as unhandled failures; every `ClientError` —
not-found, credentials, throttling alike — is caught and converted to
the 404 "Not found." response. -/
theorem image_view_error_classes :
    (∀ m : String,
      image_view (.error (.connectionFailure m)) = .unhandled m) ∧
    (∀ code : String,
      image_view (.error (.clientError code)) = .textResp 404 "Not found.") := by
  exact ⟨fun _ => rfl, fun _ => rfl⟩

/-! ## Claim C2: key generation for extensionless filenames -/

/-- C2 counterexample: with the entropy source constantly choosing
index 0 (prefix `"aaaaaaaa"`) and original filename `"README"`
(no dot), the generated key is `"aaaaaaaa.readme"` — the separator is
appended and the whole lower-cased filename is used as the extension —
not the bare 8-character prefix. -/
theorem gen_key_no_dot_counterexample :
    gen_key (fun _ => 0) "README" = "aaaaaaaa.readme" ∧
    gen_key (fun _ => 0) "README" ≠ gen_filename (fun _ => 0) := by
  decide

/-- C2 (amended): for an `originalFilename` containing no `.`, key
generation does not crash (the embedding is a total function mirroring
that Python's `split` always returns a nonempty list, so `pop` cannot
fail), but the extension is the *entire* filename lower-cased, not
empty, and the key is the 8-character prefix, the separator `.`, and
that lower-cased filename. -/
theorem gen_key_no_dot (rand : Nat → Fin 26) (name : String)
    (h : '.' ∉ name.data) :
    gen_key rand name = gen_filename rand ++ "." ++ pyLower name := by
  unfold gen_key extension_of pySplit
  rw [pySplitChar_no_sep '.' name.data h]
  rfl

/-- Witness for `gen_key_no_dot`: the filename `"README"`. -/
theorem gen_key_no_dot_witness :
    '.' ∉ "README".data ∧
    gen_key (fun _ => 0) "README"
      = gen_filename (fun _ => 0) ++ "." ++ pyLower "README" :=
  ⟨by decide, gen_key_no_dot (fun _ => 0) "README" (by decide)⟩

/-! ## Unfolding lemmas for the upload handler, one per control path -/

lemma upload_no_header (installs : List String) (storage : Storage)
    (rand : Nat → Fin 26) (files : List (String × List FilePart)) :
    upload installs storage rand ⟨none, files⟩
      = (.jsonError 400 "No authorization header present.", storage) := rfl

lemma upload_malformed_header (installs : List String) (storage : Storage)
    (rand : Nat → Fin 26) (files : List (String × List FilePart))
    (h : String) (hlen : (pySplit ' ' h).length ≠ 2) :
    upload installs storage rand ⟨some h, files⟩
      = (.jsonError 400 "Invalid authorization header present.", storage) := by
  simp [upload, hlen]

lemma upload_unknown_install (installs : List String) (storage : Storage)
    (rand : Nat → Fin 26) (files : List (String × List FilePart))
    (h : String) (hlen : (pySplit ' ' h).length = 2)
    (hc : installs.contains ((pySplit ' ' h).getD 1 "") = false) :
    upload installs storage rand ⟨some h, files⟩
      = (.jsonError 400 "Invalid installation ID.", storage) := by
  simp only [upload]
  rw [if_neg (by simp [hlen]), if_pos (by rw [hc]; rfl)]

lemma upload_no_data (installs : List String) (storage : Storage)
    (rand : Nat → Fin 26) (files : List (String × List FilePart))
    (h : String) (hlen : (pySplit ' ' h).length = 2)
    (hc : installs.contains ((pySplit ' ' h).getD 1 "") = true)
    (hd : files.lookup "data" = none) :
    upload installs storage rand ⟨some h, files⟩
      = (.jsonError 400 "No data found.", storage) := by
  simp only [upload]
  rw [if_neg (by simp [hlen]), if_neg (by rw [hc]; simp), hd]

lemma upload_empty_data (installs : List String) (storage : Storage)
    (rand : Nat → Fin 26) (files : List (String × List FilePart))
    (h : String) (hlen : (pySplit ' ' h).length = 2)
    (hc : installs.contains ((pySplit ' ' h).getD 1 "") = true)
    (hd : files.lookup "data" = some []) :
    upload installs storage rand ⟨some h, files⟩
      = (.unhandled "IndexError", storage) := by
  simp only [upload]
  rw [if_neg (by simp [hlen]), if_neg (by rw [hc]; simp), hd]

lemma upload_success (installs : List String) (storage : Storage)
    (rand : Nat → Fin 26) (files : List (String × List FilePart))
    (h : String) (hlen : (pySplit ' ' h).length = 2)
    (hc : installs.contains ((pySplit ' ' h).getD 1 "") = true)
    (f : FilePart) (rest : List FilePart)
    (hd : files.lookup "data" = some (f :: rest)) :
    upload installs storage rand ⟨some h, files⟩
      = (.jsonUrl 200 ("https://i.magiccap.me/" ++ gen_key rand f.name),
         (gen_key rand f.name, f.body, f.type) :: storage) := by
  simp only [upload]
  rw [if_neg (by simp [hlen]), if_neg (by rw [hc]; simp), hd]

/-- A concrete upload request reused by several witnesses: a valid
two-token header for installation `"install1"` and one file part named
`data` with filename `"photo.PNG"`, a four-byte body, and content type
`"image/png"`. -/
def reqPhoto : UploadRequest :=
  ⟨some "Token install1", [("data", [⟨"photo.PNG", [137, 80, 78, 71], "image/png"⟩])]⟩

/-! ## Claim C3: header shape accepted iff exactly two tokens -/

/-- C3: with an authorization header present, the handler rejects the
header's shape — `response.json` with error
`"Invalid authorization header present."` and status 400 — exactly when
splitting the value on the separator does not yield exactly two tokens;
in particular a header whose two tokens are separated by a tab or by a
run of two spaces — still exactly two whitespace-separated tokens in
the `str.split()` sense — is rejected with that 400. -/
theorem upload_auth_two_tokens (installs : List String) (storage : Storage)
    (rand : Nat → Fin 26) (files : List (String × List FilePart)) :
    (∀ h : String,
      (upload installs storage rand ⟨some h, files⟩).1
          = .jsonError 400 "Invalid authorization header present."
        ↔ (pySplit ' ' h).length ≠ 2) ∧
    wsTokens "Bearer\tinstall1" = ["Bearer", "install1"] ∧
    (upload installs storage rand ⟨some "Bearer\tinstall1", files⟩).1
      = .jsonError 400 "Invalid authorization header present." ∧
    wsTokens "Bearer  install1" = ["Bearer", "install1"] ∧
    (upload installs storage rand ⟨some "Bearer  install1", files⟩).1
      = .jsonError 400 "Invalid authorization header present." := by
  have key : ∀ h : String,
      (upload installs storage rand ⟨some h, files⟩).1
          = .jsonError 400 "Invalid authorization header present."
        ↔ (pySplit ' ' h).length ≠ 2 := by
    intro h
    constructor
    · intro hres hlen
      cases hc : installs.contains ((pySplit ' ' h).getD 1 "") with
      | false =>
        rw [upload_unknown_install installs storage rand files h hlen hc] at hres
        injection hres with hstat hmsg
        exact absurd hmsg (by decide)
      | true =>
        cases hd : files.lookup "data" with
        | none =>
          rw [upload_no_data installs storage rand files h hlen hc hd] at hres
          injection hres with hstat hmsg
          exact absurd hmsg (by decide)
        | some parts =>
          cases parts with
          | nil =>
            rw [upload_empty_data installs storage rand files h hlen hc hd] at hres
            exact UploadResult.noConfusion hres
          | cons f rest =>
            rw [upload_success installs storage rand files h hlen hc f rest hd] at hres
            exact UploadResult.noConfusion hres
    · intro hlen
      rw [upload_malformed_header installs storage rand files h hlen]
  exact ⟨key, by decide, (key _).2 (by decide), by decide, (key _).2 (by decide)⟩

/-! ## Claim C4: upload/retrieve round-trip -/

/-- C4: whenever the upload handler succeeds (a 200 response carrying a
URL), its `data` file part with body `B` and declared content type `T`
was stored under some key `k`, the URL is the public base joined with
`k`, and retrieving that exact `k` from the post-upload bucket streams
status 200 with body bytes `B` and content type `T`. -/
theorem upload_retrieve_roundtrip (installs : List String) (storage : Storage)
    (rand : Nat → Fin 26) (req : UploadRequest) (u : String) (st' : Storage)
    (hok : upload installs storage rand req = (.jsonUrl 200 u, st')) :
    ∃ (part : FilePart) (rest : List FilePart) (k : String),
      req.files.lookup "data" = some (part :: rest) ∧
      u = "https://i.magiccap.me/" ++ k ∧
      retrieve st' k = .streamResp 200 part.type part.body := by
  obtain ⟨ah, files⟩ := req
  cases ah with
  | none =>
    rw [upload_no_header] at hok
    exact UploadResult.noConfusion (congrArg Prod.fst hok)
  | some h =>
    by_cases hlen : (pySplit ' ' h).length = 2
    · cases hc : installs.contains ((pySplit ' ' h).getD 1 "") with
      | false =>
        rw [upload_unknown_install installs storage rand files h hlen hc] at hok
        exact UploadResult.noConfusion (congrArg Prod.fst hok)
      | true =>
        cases hd : files.lookup "data" with
        | none =>
          rw [upload_no_data installs storage rand files h hlen hc hd] at hok
          exact UploadResult.noConfusion (congrArg Prod.fst hok)
        | some parts =>
          cases parts with
          | nil =>
            rw [upload_empty_data installs storage rand files h hlen hc hd] at hok
            exact UploadResult.noConfusion (congrArg Prod.fst hok)
          | cons f rest =>
            rw [upload_success installs storage rand files h hlen hc f rest hd] at hok
            injection hok with hu hst
            injection hu with hstat hurl
            refine ⟨f, rest, gen_key rand f.name, rfl, hurl.symm, ?_⟩
            rw [← hst]
            simp [retrieve, get_object, image_view, List.lookup, sanicS3Stream_single]
    · rw [upload_malformed_header installs storage rand files h (by exact hlen)] at hok
      exact UploadResult.noConfusion (congrArg Prod.fst hok)

/-- Witness for `upload_retrieve_roundtrip`: uploading `reqPhoto` into
the empty bucket and retrieving the resulting key. -/
theorem upload_retrieve_roundtrip_witness :
    upload ["install1"] [] (fun _ => 0) reqPhoto
      = (.jsonUrl 200 "https://i.magiccap.me/aaaaaaaa.png",
         [("aaaaaaaa.png", [137, 80, 78, 71], "image/png")]) ∧
    (∃ (part : FilePart) (rest : List FilePart) (k : String),
      reqPhoto.files.lookup "data" = some (part :: rest) ∧
      "https://i.magiccap.me/aaaaaaaa.png" = "https://i.magiccap.me/" ++ k ∧
      retrieve [("aaaaaaaa.png", [137, 80, 78, 71], "image/png")] k
        = .streamResp 200 part.type part.body) :=
  ⟨by decide, upload_retrieve_roundtrip ["install1"] [] (fun _ => 0) reqPhoto
      "https://i.magiccap.me/aaaaaaaa.png"
      [("aaaaaaaa.png", [137, 80, 78, 71], "image/png")] (by decide)⟩

/-! ## Claim C5: exactly one write on success, none on failure -/

/-- C5: every call to the upload handler writes exactly one object to
the bucket when it returns the success response, and leaves the bucket
unchanged on every other outcome (missing header, malformed header,
unknown installation id, missing `data` field, and the uncaught
`IndexError` path alike). -/
theorem upload_storage_frame (installs : List String) (storage : Storage)
    (rand : Nat → Fin 26) (req : UploadRequest) :
    ((upload installs storage rand req).1.isOk = true →
      ∃ e, (upload installs storage rand req).2 = e :: storage) ∧
    ((upload installs storage rand req).1.isOk = false →
      (upload installs storage rand req).2 = storage) := by
  obtain ⟨ah, files⟩ := req
  cases ah with
  | none =>
    rw [upload_no_header]
    exact ⟨fun hk => Bool.noConfusion hk, fun _ => rfl⟩
  | some h =>
    by_cases hlen : (pySplit ' ' h).length = 2
    · cases hc : installs.contains ((pySplit ' ' h).getD 1 "") with
      | false =>
        rw [upload_unknown_install installs storage rand files h hlen hc]
        exact ⟨fun hk => Bool.noConfusion hk, fun _ => rfl⟩
      | true =>
        cases hd : files.lookup "data" with
        | none =>
          rw [upload_no_data installs storage rand files h hlen hc hd]
          exact ⟨fun hk => Bool.noConfusion hk, fun _ => rfl⟩
        | some parts =>
          cases parts with
          | nil =>
            rw [upload_empty_data installs storage rand files h hlen hc hd]
            exact ⟨fun hk => Bool.noConfusion hk, fun _ => rfl⟩
          | cons f rest =>
            rw [upload_success installs storage rand files h hlen hc f rest hd]
            exact ⟨fun _ => ⟨_, rfl⟩, fun hk => Bool.noConfusion hk⟩
    · rw [upload_malformed_header installs storage rand files h (by exact hlen)]
      exact ⟨fun hk => Bool.noConfusion hk, fun _ => rfl⟩

/-- Witness for `upload_storage_frame`: a successful call prepends one
object to the empty bucket; a call without the header leaves it
empty. -/
theorem upload_storage_frame_witness :
    ((upload ["install1"] [] (fun _ => 0) reqPhoto).1.isOk = true ∧
      ∃ e, (upload ["install1"] [] (fun _ => 0) reqPhoto).2
        = e :: ([] : Storage)) ∧
    ((upload ["install1"] [] (fun _ => 0) ⟨none, []⟩).1.isOk = false ∧
      (upload ["install1"] [] (fun _ => 0) ⟨none, []⟩).2 = ([] : Storage)) :=
  ⟨⟨by decide, (upload_storage_frame ["install1"] [] (fun _ => 0) reqPhoto).1
      (by decide)⟩,
   ⟨by decide, (upload_storage_frame ["install1"] [] (fun _ => 0) ⟨none, []⟩).2
      (by decide)⟩⟩

/-! ## Claim C6: shape of the generated key -/

/-- C6: on every successful upload the stored key — also the suffix of
the returned URL — is the random prefix, exactly 8 lowercase ASCII
letters, followed by the separator `.` and the lower-cased final
dot-component of the uploaded filename; for `"photo.PNG"` that
extension is `"png"`. -/
theorem upload_key_shape (installs : List String) (storage : Storage)
    (rand : Nat → Fin 26) (req : UploadRequest) (u : String) (st' : Storage)
    (hok : upload installs storage rand req = (.jsonUrl 200 u, st')) :
    ∃ (part : FilePart) (rest : List FilePart),
      req.files.lookup "data" = some (part :: rest) ∧
      st' = (gen_filename rand ++ "." ++ extension_of part.name,
             part.body, part.type) :: storage ∧
      u = "https://i.magiccap.me/"
            ++ (gen_filename rand ++ "." ++ extension_of part.name) ∧
      (gen_filename rand).length = 8 ∧
      (∀ c ∈ (gen_filename rand).data, isLowerAlpha c = true) ∧
      extension_of "photo.PNG" = "png" := by
  obtain ⟨ah, files⟩ := req
  cases ah with
  | none =>
    rw [upload_no_header] at hok
    exact UploadResult.noConfusion (congrArg Prod.fst hok)
  | some h =>
    by_cases hlen : (pySplit ' ' h).length = 2
    · cases hc : installs.contains ((pySplit ' ' h).getD 1 "") with
      | false =>
        rw [upload_unknown_install installs storage rand files h hlen hc] at hok
        exact UploadResult.noConfusion (congrArg Prod.fst hok)
      | true =>
        cases hd : files.lookup "data" with
        | none =>
          rw [upload_no_data installs storage rand files h hlen hc hd] at hok
          exact UploadResult.noConfusion (congrArg Prod.fst hok)
        | some parts =>
          cases parts with
          | nil =>
            rw [upload_empty_data installs storage rand files h hlen hc hd] at hok
            exact UploadResult.noConfusion (congrArg Prod.fst hok)
          | cons f rest =>
            rw [upload_success installs storage rand files h hlen hc f rest hd] at hok
            injection hok with hu hst
            injection hu with hstat hurl
            exact ⟨f, rest, rfl, hst.symm, hurl.symm,
              gen_filename_length rand, gen_filename_lower rand, by decide⟩
    · rw [upload_malformed_header installs storage rand files h (by exact hlen)] at hok
      exact UploadResult.noConfusion (congrArg Prod.fst hok)

/-- Witness for `upload_key_shape`: the `reqPhoto` upload into the
empty bucket. -/
theorem upload_key_shape_witness :
    upload ["install1"] [] (fun _ => 0) reqPhoto
      = (.jsonUrl 200 "https://i.magiccap.me/aaaaaaaa.png",
         [("aaaaaaaa.png", [137, 80, 78, 71], "image/png")]) ∧
    (∃ (part : FilePart) (rest : List FilePart),
      reqPhoto.files.lookup "data" = some (part :: rest) ∧
      ([("aaaaaaaa.png", [137, 80, 78, 71], "image/png")] : Storage)
        = (gen_filename (fun _ => 0) ++ "." ++ extension_of part.name,
           part.body, part.type) :: [] ∧
      "https://i.magiccap.me/aaaaaaaa.png"
        = "https://i.magiccap.me/"
            ++ (gen_filename (fun _ => 0) ++ "." ++ extension_of part.name) ∧
      (gen_filename (fun _ => 0)).length = 8 ∧
      (∀ c ∈ (gen_filename (fun _ => 0)).data, isLowerAlpha c = true) ∧
      extension_of "photo.PNG" = "png") :=
  ⟨by decide, upload_key_shape ["install1"] [] (fun _ => 0) reqPhoto
      "https://i.magiccap.me/aaaaaaaa.png"
      [("aaaaaaaa.png", [137, 80, 78, 71], "image/png")] (by decide)⟩

/-! ## Claim C7: the three authorization failures -/

/-- C7: each of the three authorization failure kinds — header absent,
header malformed, credential not matching any registered installation —
yields `response.json({"error": ...})` with status 400, and the three
human-readable messages are pairwise distinct. -/
theorem upload_auth_failure_responses :
    (∀ (installs : List String) (storage : Storage) (rand : Nat → Fin 26)
        (files : List (String × List FilePart)),
      (upload installs storage rand ⟨none, files⟩).1
        = .jsonError 400 "No authorization header present.") ∧
    (∀ (installs : List String) (storage : Storage) (rand : Nat → Fin 26)
        (files : List (String × List FilePart)) (h : String),
      (pySplit ' ' h).length ≠ 2 →
      (upload installs storage rand ⟨some h, files⟩).1
        = .jsonError 400 "Invalid authorization header present.") ∧
    (∀ (installs : List String) (storage : Storage) (rand : Nat → Fin 26)
        (files : List (String × List FilePart)) (h : String),
      (pySplit ' ' h).length = 2 →
      installs.contains ((pySplit ' ' h).getD 1 "") = false →
      (upload installs storage rand ⟨some h, files⟩).1
        = .jsonError 400 "Invalid installation ID.") ∧
    ("No authorization header present."
       ≠ "Invalid authorization header present." ∧
     "No authorization header present." ≠ "Invalid installation ID." ∧
     "Invalid authorization header present." ≠ "Invalid installation ID.") := by
  refine ⟨?_, ?_, ?_, by decide, by decide, by decide⟩
  · intro installs storage rand files
    exact congrArg Prod.fst (upload_no_header installs storage rand files)
  · intro installs storage rand files h hlen
    exact congrArg Prod.fst (upload_malformed_header installs storage rand files h hlen)
  · intro installs storage rand files h hlen hc
    exact congrArg Prod.fst (upload_unknown_install installs storage rand files h hlen hc)

/-- Witness for `upload_auth_failure_responses`: the three failure
kinds at concrete requests. -/
theorem upload_auth_failure_responses_witness :
    (upload ["install1"] [] (fun _ => 0) ⟨none, []⟩).1
      = .jsonError 400 "No authorization header present." ∧
    ((pySplit ' ' "BearerToken").length ≠ 2 ∧
      (upload ["install1"] [] (fun _ => 0) ⟨some "BearerToken", []⟩).1
        = .jsonError 400 "Invalid authorization header present.") ∧
    ((pySplit ' ' "Token other").length = 2 ∧
      ["install1"].contains ((pySplit ' ' "Token other").getD 1 "") = false ∧
      (upload ["install1"] [] (fun _ => 0) ⟨some "Token other", []⟩).1
        = .jsonError 400 "Invalid installation ID.") :=
  ⟨upload_auth_failure_responses.1 ["install1"] [] (fun _ => 0) [],
   ⟨by decide, upload_auth_failure_responses.2.1 ["install1"] [] (fun _ => 0) []
      "BearerToken" (by decide)⟩,
   ⟨by decide, by decide,
    upload_auth_failure_responses.2.2.1 ["install1"] [] (fun _ => 0) []
      "Token other" (by decide) (by decide)⟩⟩

/-! ## Claim C10: empty `data` file-part list raises IndexError -/

/-- C10: when the multipart body maps the field name `data` to an empty
list of file parts, `req.files['data'][0]` raises an `IndexError` that
the handler's `except KeyError` clause does not catch — the call ends
in an unhandled failure, not in the 400 "No data found." response. -/
theorem upload_empty_data_unhandled (installs : List String) (storage : Storage)
    (rand : Nat → Fin 26) (files : List (String × List FilePart)) (h : String)
    (hlen : (pySplit ' ' h).length = 2)
    (hc : installs.contains ((pySplit ' ' h).getD 1 "") = true)
    (hd : files.lookup "data" = some []) :
    (upload installs storage rand ⟨some h, files⟩).1 = .unhandled "IndexError" ∧
    (upload installs storage rand ⟨some h, files⟩).1
      ≠ .jsonError 400 "No data found." := by
  rw [upload_empty_data installs storage rand files h hlen hc hd]
  exact ⟨rfl, fun hq => UploadResult.noConfusion hq⟩

/-- Witness for `upload_empty_data_unhandled`: an authorized request
whose `data` field carries an empty list of parts. -/
theorem upload_empty_data_unhandled_witness :
    (pySplit ' ' "Token install1").length = 2 ∧
    ["install1"].contains ((pySplit ' ' "Token install1").getD 1 "") = true ∧
    ([("data", [])] : List (String × List FilePart)).lookup "data" = some [] ∧
    ((upload ["install1"] [] (fun _ => 0)
        ⟨some "Token install1", [("data", [])]⟩).1 = .unhandled "IndexError" ∧
     (upload ["install1"] [] (fun _ => 0)
        ⟨some "Token install1", [("data", [])]⟩).1
       ≠ .jsonError 400 "No data found.") :=
  ⟨by decide, by decide, by decide,
   upload_empty_data_unhandled ["install1"] [] (fun _ => 0) [("data", [])]
     "Token install1" (by decide) (by decide) (by decide)⟩

end MagicCap
